import Mathlib

/-!
Shallow embedding of the payment/entitlement core of the vividtweaks service
(src/index.js and the entitlement-variant revision in src/unnamed/part_000),
together with theorems settling the frozen claims about it.

Conventions of the embedding:
* JS string-valued status fields are kept as `String` values ("created",
  "paid", "refunded", "pending", ...), exactly as in the source.
* MongoDB collections are embedded as Lean lists in insertion order;
  `updateOne` updates the first matching element, `updateMany` maps over all
  matching elements, and an upsert appends when no element matches.
* Timestamps are naturals (milliseconds); `Date.now()` is passed in as `now`.
* External collaborators (Stripe API, Discord API) are oracles passed as
  parameters; their observable side effects are recorded as `Effect` values.
* The money parser's JS float arithmetic is modeled explicitly: `jsNumber`
  is binary64 rounding of a nonnegative integer (round-to-nearest,
  ties-to-even, overflow to Infinity), so `amountToMinorUnits` agrees with
  the JS code on every input, including the huge ones where the float
  computation loses precision or the `Number.isFinite` guard fires.
  Other amount fields never leave the parser's accepted range and are
  carried as plain `Nat`/`Int`.
-/

namespace VividTweaks

/-- Hard-coded single tenant (src/index.js line 23). -/
def ALLOWED_GUILD_ID : String := "1269702895549419544"

/-- Hard-coded refund approver (src/index.js line 24). -/
def REFUND_APPROVER_USER_ID : String := "1400281740978815118"

/-- The 24-hour refund window in milliseconds (src/index.js line 34). -/
def REFUND_WINDOW_MS : Nat := 24 * 60 * 60 * 1000

/-- Fixed currency (src/index.js line 33). -/
def CURRENCY : String := "gbp"

/-- Canonical plan order (src/index.js line 66). -/
def PLAN_KEYS : List String := ["one_time", "monthly", "annual", "lifetime"]

/-- Plan display labels (src/index.js lines 67-72). -/
def planLabel (k : String) : String :=
  if k = "one_time" then "One-time"
  else if k = "monthly" then "Monthly"
  else if k = "annual" then "Annually"
  else if k = "lifetime" then "Lifetime"
  else k

/-! ## Money codec (src/index.js lines 36-49) -/

/-- Numeric value of a run of decimal digit characters (the value JS
`Number` gives to a digit string). -/
def digitsToNat (cs : List Char) : Nat :=
  cs.foldl (fun n c => 10 * n + (c.toNat - 48)) 0

/-- The regex class `\d`, i.e. exactly the characters `0`-`9`. -/
def isDig (c : Char) : Bool :=
  48 ≤ c.toNat && c.toNat ≤ 57

/-- Decompose a character list as the anchored JS regex
`^\d+(\.\d{1,2})?$` does (src/index.js line 39): a non-empty run of digits,
optionally followed by a dot and one or two digits.  Returns the whole-part
digits and the (possibly empty) fraction digits on a match. -/
def decimalSplit (cs : List Char) : Option (List Char × List Char) :=
  if (cs.takeWhile isDig).isEmpty then none
  else
    match cs.dropWhile isDig with
    | [] => some (cs.takeWhile isDig, [])
    | '.' :: fr =>
        if !fr.isEmpty && decide (fr.length ≤ 2) && fr.all isDig then
          some (cs.takeWhile isDig, fr)
        else none
    | _ => none

/-- The characters JS `String.prototype.trim` strips: the WhiteSpace set
(TAB, VT, FF, SP, NBSP, ZWNBSP and the Unicode Zs category: U+1680,
U+2000..U+200A, U+202F, U+205F, U+3000) and the LineTerminator set
(LF, CR, LS U+2028, PS U+2029). -/
def isJsSpace (c : Char) : Bool :=
  c = '\t' || c = '\n' || c = '\x0b' || c = '\x0c' || c = '\r' || c = ' ' ||
  c.toNat = 0xa0 || c.toNat = 0x1680 ||
  (0x2000 ≤ c.toNat && c.toNat ≤ 0x200a) ||
  c.toNat = 0x2028 || c.toNat = 0x2029 || c.toNat = 0x202f ||
  c.toNat = 0x205f || c.toNat = 0x3000 || c.toNat = 0xfeff

/-- JS `s.trim()`: drop whitespace from both ends. -/
def jsTrim (cs : List Char) : List Char :=
  ((cs.dropWhile isJsSpace).reverse.dropWhile isJsSpace).reverse

/-- The trimmed input, as a string (for comparing the code's behaviour on
`s` against the spec's decimal grammar applied to the trimmed text). -/
def jsTrimStr (s : String) : String :=
  String.mk (jsTrim s.toList)

/-- Binary64 rounding of a nonnegative integer with unbounded exponent:
round-to-nearest, ties-to-even on the 53-bit significand.  Integers below
2^53 are exactly representable; above, the value is rounded to a multiple
of the unit in the last place `2^(log2 n - 52)`. -/
def floatRound53 (n : Nat) : Nat :=
  if n < 2 ^ 53 then n
  else
    let k := n.log2 - 52
    let q := n / 2 ^ k
    let r := n % 2 ^ k
    let half := 2 ^ (k - 1)
    if half < r ∨ (r = half ∧ q % 2 = 1) then (q + 1) * 2 ^ k else q * 2 ^ k

/-- The JS double holding a nonnegative integer value: `floatRound53`, with
the IEEE overflow rule — a value that rounds (with unbounded exponent) to
at least 2^1024 becomes `Infinity` (`none`).  This is the value
`Number(digits)` takes on a digit string, and one step of `*`/`+` on
nonnegative integer-valued doubles. -/
def jsNumber (n : Nat) : Option Nat :=
  if 2 ^ 1024 ≤ floatRound53 n then none else some (floatRound53 n)

/-- The JS evaluation of `Number(whole) * 100 + Number(frac)`
(src/index.js line 42): each conversion and each arithmetic step rounds to
binary64; `Infinity` (`none`) propagates.  All intermediate values are
nonnegative integers, so each step is `jsNumber` of the exact result. -/
def jsMinor (wholeValue fracValue : Nat) : Option Nat :=
  (jsNumber wholeValue).bind fun a =>
    (jsNumber fracValue).bind fun c =>
      (jsNumber (a * 100)).bind fun b =>
        jsNumber (b + c)

/-- Source `amountToMinorUnits` (src/index.js lines 36-45): trims the input,
tests it against `^\d+(\.\d{1,2})?$`, splits on the dot, right-pads the
fraction to two digits, computes `Number(whole) * 100 + Number(frac)` in
JS double arithmetic, and rejects the result when it is not finite
(`!Number.isFinite(minor)`) or not positive. -/
def amountToMinorUnits (s : String) : Option Nat :=
  match decimalSplit (jsTrim s.toList) with
  | none => none
  | some (w, fr) =>
      match jsMinor (digitsToNat w) (digitsToNat ((fr ++ ['0', '0']).take 2)) with
      | none => none
      | some minor => if minor = 0 then none else some minor

/-- Render a natural below 100 with exactly two digits (the fractional part
`toFixed(2)` produces). -/
def pad2 (n : Nat) : String :=
  if n < 10 then "0" ++ toString n else toString n

/-- Source `minorToDisplay` (src/index.js lines 47-49): the `£x.yy` string
`(minor / 100).toFixed(2)` renders.  The `Nat` rendering here is the JS
output exactly whenever `minor < 100 * 2^46`: there the double
`fl(minor / 100)` is below `2^46`, so it differs from the true quotient by
at most half an ulp `2^-8 < 1/200`, and `toFixed(2)` (nearest hundredth)
recovers precisely the quotient's two decimals.  The round-trip theorem
below quantifies only over that range. -/
def minorToDisplay (minor : Nat) : String :=
  "£" ++ toString (minor / 100) ++ "." ++ pad2 (minor % 100)

/-- Spec-side reading, for the refinement comparison in the amount claim:
the value, in hundredths, of a string that (without any trimming) matches
an unsigned decimal with at most two fractional digits, per the spec's
words "accepts only strings matching an unsigned decimal with at most two
fractional digits". -/
def specAmountHundredths (s : String) : Option Nat :=
  match decimalSplit s.toList with
  | none => none
  | some (w, fr) => some (digitsToNat w * 100 + digitsToNat ((fr ++ ['0', '0']).take 2))

/-- Spec-side canonical two-decimal display of a matching input string:
the `£` rendering of the same value the input denotes. -/
def canonicalDisplay (s : String) : Option String :=
  match decimalSplit s.toList with
  | none => none
  | some (w, fr) =>
      let f := digitsToNat ((fr ++ ['0', '0']).take 2)
      some ("£" ++ toString (digitsToNat w) ++ "." ++ pad2 f)

/-! ### Lemmas about the money codec -/

lemma digitsToNat_pair_lt (a b : Char) (ha : isDig a = true) (hb : isDig b = true) :
    digitsToNat [a, b] < 100 := by
  simp only [isDig, Bool.and_eq_true, decide_eq_true_eq] at ha hb
  simp only [digitsToNat, List.foldl]
  omega

lemma frac_padded_lt (fr : List Char) (hlen : fr.length ≤ 2) (hdig : fr.all isDig = true) :
    digitsToNat ((fr ++ ['0', '0']).take 2) < 100 := by
  match fr, hlen with
  | [], _ => simp [digitsToNat]
  | [a], _ =>
      simp only [List.all_cons, List.all_nil, Bool.and_true] at hdig
      exact digitsToNat_pair_lt a '0' hdig (by decide)
  | [a, b], _ =>
      simp only [List.all_cons, List.all_nil, Bool.and_true, Bool.and_eq_true] at hdig
      exact digitsToNat_pair_lt a b hdig.1 hdig.2
  | _ :: _ :: _ :: _, hlen => simp at hlen

lemma decimalSplit_frac_ok (cs w fr : List Char) (h : decimalSplit cs = some (w, fr)) :
    fr.length ≤ 2 ∧ fr.all isDig = true := by
  unfold decimalSplit at h
  split at h
  · simp at h
  · split at h
    · simp only [Option.some.injEq, Prod.mk.injEq] at h
      obtain ⟨h1, h2⟩ := h
      subst h2
      simp
    · split at h
      · rename_i hcond
        simp only [Bool.and_eq_true, decide_eq_true_eq] at hcond
        simp only [Option.some.injEq, Prod.mk.injEq] at h
        obtain ⟨h1, h2⟩ := h
        subst h2
        exact ⟨hcond.1.2, hcond.2⟩
      · simp at h
    · simp at h

lemma jsTrimStr_toList (s : String) : (jsTrimStr s).toList = jsTrim s.toList := rfl

set_option maxRecDepth 4000 in
lemma jsNumber_small (n : Nat) (h : n < 2 ^ 53) : jsNumber n = some n := by
  have hr : floatRound53 n = n := by
    unfold floatRound53
    rw [if_pos h]
  have hcap : ¬ 2 ^ 1024 ≤ n :=
    Nat.not_le.mpr (lt_of_lt_of_le h (Nat.pow_le_pow_right (by norm_num) (by norm_num)))
  unfold jsNumber
  rw [hr, if_neg hcap]

/-- Below 2^53 every step of `Number(whole) * 100 + Number(frac)` is exact,
so the JS float evaluation returns the exact integer. -/
lemma jsMinor_small (wv fv : Nat) (hf : fv < 100) (h : wv * 100 + fv < 2 ^ 53) :
    jsMinor wv fv = some (wv * 100 + fv) := by
  have h53 : (2 : Nat) ^ 53 = 9007199254740992 := by norm_num
  have hwv : wv < 2 ^ 53 := by rw [h53]; rw [h53] at h; omega
  have hfv : fv < 2 ^ 53 := by rw [h53]; rw [h53] at h; omega
  have hx : wv * 100 < 2 ^ 53 := by rw [h53]; rw [h53] at h; omega
  unfold jsMinor
  rw [jsNumber_small wv hwv, Option.some_bind, jsNumber_small fv hfv, Option.some_bind,
    jsNumber_small _ hx, Option.some_bind, jsNumber_small _ h]

set_option maxRecDepth 10000 in
/-- C7 counterexample: the string `" 5"` does not match the unsigned-decimal
grammar (it starts with a space), so the claim requires `parseAmount` to
return invalid on it; the code trims first and returns 500. -/
theorem c7_counterexample :
    specAmountHundredths " 5" = none ∧ amountToMinorUnits " 5" = some 500 :=
  ⟨by decide, by decide⟩

set_option maxRecDepth 10000 in
/-- C7 (amended): for every string whose *trimmed* form matches an unsigned
decimal with at most two fractional digits and a positive value below
`100 * 2^46` minor units (about seven quadrillion pence — every step of
the JS float evaluation, and the `toFixed(2)` rendering, is exact there),
`amountToMinorUnits` returns exactly that value in minor units and
`minorToDisplay` renders the same two-decimal display value as the trimmed
input; for every string whose trimmed form does not match, or has value
zero, `amountToMinorUnits` returns `none`. -/
theorem c7_amount_roundtrip :
    (∀ (s : String) (v : Nat), specAmountHundredths (jsTrimStr s) = some v → 0 < v →
        v < 100 * 2 ^ 46 →
        amountToMinorUnits s = some v ∧
        canonicalDisplay (jsTrimStr s) = some (minorToDisplay v)) ∧
    (∀ s : String,
        (specAmountHundredths (jsTrimStr s) = none ∨
         specAmountHundredths (jsTrimStr s) = some 0) →
        amountToMinorUnits s = none) := by
  constructor
  · intro s v hspec hpos hbound
    have hv53 : v < 2 ^ 53 :=
      lt_trans hbound (by norm_num)
    unfold specAmountHundredths at hspec
    cases h : decimalSplit (jsTrimStr s).toList with
    | none => rw [h] at hspec; exact absurd hspec (by simp)
    | some p =>
      cases p with
      | mk w fr =>
        rw [h] at hspec
        simp only [Option.some.injEq] at hspec
        obtain ⟨hlen, hdig⟩ := decimalSplit_frac_ok _ _ _ h
        have hf : digitsToNat ((fr ++ ['0', '0']).take 2) < 100 :=
          frac_padded_lt fr hlen hdig
        constructor
        · unfold amountToMinorUnits
          rw [← jsTrimStr_toList, h]
          show (match jsMinor (digitsToNat w) (digitsToNat ((fr ++ ['0', '0']).take 2)) with
                | none => none
                | some minor => if minor = 0 then none else some minor)
            = some v
          rw [jsMinor_small _ _ hf (by rw [hspec]; exact hv53)]
          show (if digitsToNat w * 100 + digitsToNat ((fr ++ ['0', '0']).take 2) = 0
                then none
                else some (digitsToNat w * 100 + digitsToNat ((fr ++ ['0', '0']).take 2)))
            = some v
          rw [hspec, if_neg (by omega)]
        · unfold canonicalDisplay
          rw [h]
          subst hspec
          simp only [Option.some.injEq]
          unfold minorToDisplay
          have hdiv :
              (digitsToNat w * 100 + digitsToNat ((fr ++ ['0', '0']).take 2)) / 100 =
                digitsToNat w := by
            rw [Nat.mul_comm, Nat.mul_add_div (by norm_num), Nat.div_eq_of_lt hf,
              Nat.add_zero]
          have hmod :
              (digitsToNat w * 100 + digitsToNat ((fr ++ ['0', '0']).take 2)) % 100 =
                digitsToNat ((fr ++ ['0', '0']).take 2) := by
            omega
          rw [hdiv, hmod]
  · intro s hbad
    unfold amountToMinorUnits
    rw [← jsTrimStr_toList]
    cases h : decimalSplit (jsTrimStr s).toList with
    | none => rfl
    | some p =>
      cases p with
      | mk w fr =>
        unfold specAmountHundredths at hbad
        rw [h] at hbad
        rcases hbad with hbad | hbad
        · exact absurd hbad (by simp)
        · simp only [Option.some.injEq] at hbad
          have hw0 : digitsToNat w = 0 := by omega
          have hf0 : digitsToNat ((fr ++ ['0', '0']).take 2) = 0 := by omega
          show (match jsMinor (digitsToNat w) (digitsToNat ((fr ++ ['0', '0']).take 2)) with
                | none => none
                | some minor => if minor = 0 then none else some minor)
            = none
          rw [hw0, hf0, jsMinor_small 0 0 (by norm_num) (by norm_num)]
          rfl

set_option maxRecDepth 10000 in
/-- Closed witness for `c7_amount_roundtrip` at concrete inputs. -/
theorem c7_amount_roundtrip_witness :
    (amountToMinorUnits "1.5" = some 150 ∧
     canonicalDisplay (jsTrimStr "1.5") = some (minorToDisplay 150)) ∧
    amountToMinorUnits "abc" = none :=
  ⟨c7_amount_roundtrip.1 "1.5" 150 (by decide) (by decide) (by norm_num),
   c7_amount_roundtrip.2 "abc" (Or.inl (by decide))⟩

/-! ## Plan enumeration (src/index.js lines 66, 169-175)

A product's `prices` object maps each plan key to an optional
`{ amountMinor }` record.  The stored amount is a JS number; it is embedded
as `Int` (every number the service itself stores is a positive integer
produced by `amountToMinorUnits`, but `enabledPlans` is a total function on
whatever the document holds). -/

structure Prices where
  one_time : Option Int := none
  monthly : Option Int := none
  annual : Option Int := none
  lifetime : Option Int := none
deriving DecidableEq, Repr

/-- The lookup `pricesObj?.[key]?.amountMinor` (as an optional value). -/
def Prices.amount (p : Prices) (key : String) : Option Int :=
  if key = "one_time" then p.one_time
  else if key = "monthly" then p.monthly
  else if key = "annual" then p.annual
  else if key = "lifetime" then p.lifetime
  else none

/-- JS truthiness of `pricesObj?.[key]?.amountMinor`: a present, non-zero
number (an absent plan record or a zero amount is falsy). -/
def amountTruthy (a : Option Int) : Bool :=
  match a with
  | some v => v ≠ 0
  | none => false

/-- Source `enabledPlans` (src/index.js lines 169-175): walk `PLAN_KEYS` in order
and push every key whose `amountMinor` is truthy. -/
def enabledPlans (prices : Prices) : List String :=
  PLAN_KEYS.foldl (fun out key => if amountTruthy (prices.amount key) then out ++ [key] else out) []

lemma foldl_push_eq_filter (p : String → Bool) (ks : List String) (acc : List String) :
    ks.foldl (fun out key => if p key then out ++ [key] else out) acc = acc ++ ks.filter p := by
  induction ks generalizing acc with
  | nil => simp
  | cons k ks ih =>
      simp only [List.foldl_cons, List.filter_cons]
      by_cases h : p k
      · simp [h, ih]
      · simp [h, ih]

lemma enabledPlans_eq_filter (prices : Prices) :
    enabledPlans prices = PLAN_KEYS.filter (fun key => amountTruthy (prices.amount key)) := by
  unfold enabledPlans
  rw [foldl_push_eq_filter]
  simp

/-- C9 counterexample: the claim says a plan appears in the result iff its
amount is a *positive integer*; the code only tests JS truthiness, so a
price map holding `amountMinor = -1` yields an enabled plan whose amount is
not positive. -/
theorem c9_counterexample :
    enabledPlans { one_time := some (-1) } = ["one_time"] ∧
    Prices.amount { one_time := some (-1) } "one_time" = some (-1) ∧
    ¬ (0 : Int) < -1 :=
  ⟨by decide, by decide, by decide⟩

/-- C9 (amended): `enabledPlans` returns plan keys in the fixed canonical
order `one_time, monthly, annual, lifetime` (its result is always a
sublist of `PLAN_KEYS`), and a plan key appears in the result iff it is a
plan key whose minor-unit amount is present and non-zero; in particular,
on price maps whose stored amounts are all non-negative (as every map
written by the service is), a key appears iff its amount is a positive
integer. -/
theorem c9_enabled_plans (prices : Prices) :
    (enabledPlans prices).Sublist PLAN_KEYS ∧
    (∀ k, k ∈ enabledPlans prices ↔
      k ∈ PLAN_KEYS ∧ amountTruthy (prices.amount k) = true) ∧
    ((∀ k a, prices.amount k = some a → 0 ≤ a) →
      ∀ k, k ∈ enabledPlans prices ↔
        k ∈ PLAN_KEYS ∧ ∃ a, prices.amount k = some a ∧ 0 < a) := by
  refine ⟨?_, ?_, ?_⟩
  · rw [enabledPlans_eq_filter]
    exact List.filter_sublist PLAN_KEYS
  · intro k
    rw [enabledPlans_eq_filter, List.mem_filter]
  · intro hnn k
    rw [enabledPlans_eq_filter, List.mem_filter]
    constructor
    · rintro ⟨hmem, htruthy⟩
      refine ⟨hmem, ?_⟩
      unfold amountTruthy at htruthy
      cases ha : prices.amount k with
      | none => rw [ha] at htruthy; simp at htruthy
      | some a =>
          rw [ha] at htruthy
          simp only [decide_eq_true_eq] at htruthy
          have := hnn k a ha
          exact ⟨a, rfl, by omega⟩
    · rintro ⟨hmem, a, ha, hpos⟩
      refine ⟨hmem, ?_⟩
      unfold amountTruthy
      rw [ha]
      simp only [decide_eq_true_eq]
      omega

/-- Closed witness for `c9_enabled_plans` at a concrete price map. -/
theorem c9_enabled_plans_witness :
    "monthly" ∈ enabledPlans { monthly := some 499 } ↔
      "monthly" ∈ PLAN_KEYS ∧
        ∃ a, Prices.amount { monthly := some 499 } "monthly" = some a ∧ 0 < a :=
  (c9_enabled_plans { monthly := some 499 }).2.2
    (by
      intro k a h
      revert h
      unfold Prices.amount
      split
      · simp
      · split
        · intro h
          simp only [Option.some.injEq] at h
          omega
        · split
          · simp
          · split <;> simp) "monthly"

/-! ## Entitlement ledger and checkout gate
(src/unnamed/part_000, entitlement variant, lines 1622-1650) -/

/-- One entitlement document, unique per (guild, user, product). -/
structure Entitlement where
  guildId : String
  userId : String
  productId : String
  status : String
  planKey : String
  referenceCode : Option String := none
  lastPurchaseId : Option String := none
  stripeSubscriptionId : Option String := none
  currentPeriodEnd : Option Nat := none
  subscriptionStatus : Option String := none
  createdAt : Nat := 0
  updatedAt : Nat := 0
deriving DecidableEq, Repr

/-- Source `getEntitlement` (part_000 lines 1623-1625): `findOne` on the
(guild, user, product) key. -/
def getEntitlement (ents : List Entitlement) (guildId userId productId : String) :
    Option Entitlement :=
  ents.find? (fun e => e.guildId == guildId && e.userId == userId && e.productId == productId)

/-- Result of the checkout gate: allow/deny plus the denial reason. -/
structure GateResult where
  ok : Bool
  reason : Option String
deriving DecidableEq, Repr

/-- Source `canStartCheckout` (part_000 lines 1629-1650): deny a second purchase of
an owned product, except the one-time → monthly/annual upgrade path. -/
def canStartCheckout (ents : List Entitlement) (guildId userId productId planKey : String)
    (isUpgrade : Bool) : GateResult :=
  match getEntitlement ents guildId userId productId with
  | none => ⟨true, none⟩
  | some ent =>
      if ent.status ≠ "active" then ⟨true, none⟩
      else if ent.planKey = "lifetime" then
        ⟨false, some "You already own **Lifetime** for this product."⟩
      else if isUpgrade then
        if ent.planKey ≠ "one_time" then
          ⟨false, some "Upgrade is only for **One-time → Monthly/Annual**."⟩
        else if ¬(planKey = "monthly" ∨ planKey = "annual") then
          ⟨false, some "Upgrade must be **Monthly** or **Annual**."⟩
        else if ent.stripeSubscriptionId.isSome then
          ⟨false, some "A subscription is already on record for this product."⟩
        else ⟨true, none⟩
      else
        ⟨false, some ("You already own this product (**" ++ planLabel ent.planKey ++
          "**). If you bought one-time and want updates, use **/upgrade**.")⟩

/-- C6: an `active` entitlement at plan `lifetime` makes the checkout gate
deny every purchase and every upgrade attempt for that product, whatever
the target plan key and whatever the `isUpgrade` flag. -/
theorem c6_lifetime_blocks_all (ents : List Entitlement)
    (guildId userId productId planKey : String) (isUpgrade : Bool) (ent : Entitlement)
    (hfind : getEntitlement ents guildId userId productId = some ent)
    (hactive : ent.status = "active") (hlife : ent.planKey = "lifetime") :
    (canStartCheckout ents guildId userId productId planKey isUpgrade).ok = false := by
  unfold canStartCheckout
  rw [hfind]
  simp [hactive, hlife]

/-- Closed witness for `c6_lifetime_blocks_all`: a concrete lifetime owner
is denied a `monthly` upgrade attempt. -/
theorem c6_lifetime_blocks_all_witness :
    (canStartCheckout
      [{ guildId := "g", userId := "u", productId := "p",
         status := "active", planKey := "lifetime" }]
      "g" "u" "p" "monthly" true).ok = false :=
  c6_lifetime_blocks_all _ "g" "u" "p" "monthly" true
    { guildId := "g", userId := "u", productId := "p",
      status := "active", planKey := "lifetime" }
    (by decide) rfl rfl

/-! ## Purchases and the document-store primitives -/

/-- One purchase document (the `purchases` collection).  Unique index on
`purchaseId`; unique sparse index on `stripeSessionId` (src/index.js
lines 113-114). -/
structure Purchase where
  purchaseId : String
  guildId : String
  userId : String
  type : String
  amountMinor : Nat := 0
  currency : String := CURRENCY
  stripeSessionId : Option String := none
  status : String
  createdAt : Nat := 0
  productId : Option String := none
  productName : Option String := none
  planKey : Option String := none
  roleId : Option String := none
  referenceCode : Option String := none
  paidAt : Option Nat := none
  stripePaymentIntentId : Option String := none
  stripeSubscriptionId : Option String := none
  currentPeriodEnd : Option Nat := none
  subscriptionStatus : Option String := none
  cancelAtPeriodEnd : Option Bool := none
  refundedAt : Option Nat := none
  stripeRefundId : Option String := none
  subscriptionEndedAt : Option Nat := none
  subscriptionUpdatedAt : Option Nat := none
deriving DecidableEq, Repr

/-- Observable side effects on the external collaborators (Discord, Stripe),
recorded in the order the handlers attempt them. -/
inductive Effect where
  | roleGrant (userId roleId : String)
  | roleRemove (userId roleId : String)
  | purchaseLog
  | thanksMessage (userId purchaseId : String)
  | entitlementUpsert (guildId userId productId : String)
  | dmUpsell (userId : String)
  | stripeRefundCreate (paymentIntentId : String)
  | stripeSubCancel (subscriptionId : String)
  | reply (msg : String)
deriving DecidableEq, Repr

/-- A Stripe refund or subscription-cancel call: the "financial actions"
of the refund workflow. -/
def Effect.isFinancial : Effect → Bool
  | .stripeRefundCreate _ => true
  | .stripeSubCancel _ => true
  | _ => false

/-- Mongo `updateOne`: update the first document matching `q` with `f`;
also report whether a document matched. -/
def updateFirst {α : Type} (q : α → Bool) (f : α → α) : List α → List α × Bool
  | [] => ([], false)
  | x :: xs =>
      if q x then (f x :: xs, true)
      else
        let r := updateFirst q f xs
        (x :: r.1, r.2)

lemma updateFirst_snd {α : Type} (q : α → Bool) (f : α → α) (l : List α) :
    (updateFirst q f l).2 = l.any q := by
  induction l with
  | nil => rfl
  | cons x xs ih =>
      unfold updateFirst
      by_cases h : q x
      · simp [h]
      · simp [h, ih]

lemma updateFirst_not_found {α : Type} (q : α → Bool) (f : α → α) (l : List α)
    (h : l.any q = false) : (updateFirst q f l).1 = l := by
  induction l with
  | nil => rfl
  | cons x xs ih =>
      simp only [List.any_cons, Bool.or_eq_false_iff] at h
      unfold updateFirst
      simp [h.1, ih h.2]

/-- When some document matches, `updateFirst` maps exactly the first match
and leaves everything else in place. -/
lemma updateFirst_decomp {α : Type} (q : α → Bool) (f : α → α) (l : List α)
    (h : l.any q = true) :
    ∃ l1 x l2, l = l1 ++ x :: l2 ∧ (∀ y ∈ l1, q y = false) ∧ q x = true ∧
      (updateFirst q f l).1 = l1 ++ f x :: l2 := by
  induction l with
  | nil => simp at h
  | cons a xs ih =>
      by_cases ha : q a
      · exact ⟨[], a, xs, by simp, by simp, ha, by simp [updateFirst, ha]⟩
      · simp only [List.any_cons, ha, Bool.false_or] at h
        obtain ⟨l1, x, l2, hl, h1, hx, hr⟩ := ih h
        refine ⟨a :: l1, x, l2, by simp [hl], ?_, hx, ?_⟩
        · intro y hy
          rcases List.mem_cons.mp hy with hy | hy
          · subst hy; exact (Bool.not_eq_true _).mp ha
          · exact h1 y hy
        · unfold updateFirst
          simp [ha, hr]

/-- Running `find?` after `updateFirst` with the same predicate: the first match is
mapped, provided `f` preserves the predicate. -/
lemma find?_updateFirst {α : Type} (q : α → Bool) (f : α → α)
    (hf : ∀ x, q (f x) = q x) (l : List α) :
    ((updateFirst q f l).1).find? q = (l.find? q).map f := by
  induction l with
  | nil => rfl
  | cons x xs ih =>
      by_cases h : q x
      · unfold updateFirst
        rw [if_pos h]
        rw [List.find?_cons_of_pos _ ((hf x).trans h), List.find?_cons_of_pos _ h]
        rfl
      · unfold updateFirst
        rw [if_neg h]
        show (x :: (updateFirst q f xs).1).find? q = _
        rw [List.find?_cons_of_neg _ h, List.find?_cons_of_neg _ h]
        exact ih

/-- A conjunction-filtered `findOne` agrees with the plain one when the
first plain match also satisfies the extra conjunct. -/
lemma find?_and_eq {α : Type} (p r : α → Bool) (l : List α) (x : α)
    (h : l.find? p = some x) (hr : r x = true) :
    l.find? (fun y => p y && r y) = some x := by
  induction l with
  | nil => simp at h
  | cons a xs ih =>
      by_cases ha : p a
      · rw [List.find?_cons_of_pos _ ha] at h
        injection h with h
        subst h
        rw [List.find?_cons_of_pos]
        simp [ha, hr]
      · rw [List.find?_cons_of_neg _ ha] at h
        rw [List.find?_cons_of_neg]
        · exact ih h
        · simp [ha]

/-! ## Webhook reconciler: `checkout.session.completed`
(src/index.js lines 1028-1125) -/

/-- The metadata bag placed on a checkout session at creation time and read
back by the webhook.  Stripe metadata values are strings; `amount_minor`
is embedded as the number `Number(meta.amount_minor || 0) || 0` yields. -/
structure SessionMeta where
  purchase_id : Option String := none
  guild_id : Option String := none
  user_id : Option String := none
  type : Option String := none
  product_id : Option String := none
  product_name : Option String := none
  plan_key : Option String := none
  role_id : Option String := none
  amount_minor : Option Nat := none
  currency : Option String := none
  reference_code : Option String := none
  mode_tag : Option String := none
deriving DecidableEq, Repr

/-- The relevant fields of the `checkout.session.completed` event object. -/
structure CheckoutSession where
  id : String
  payment_intent : Option String := none
  subscription : Option String := none
  metadata : SessionMeta
deriving DecidableEq, Repr

/-- What `stripe.subscriptions.retrieve` reports for a subscription. -/
structure SubInfo where
  status : String
  cancel_at_period_end : Bool
  current_period_end : Option Nat := none
deriving DecidableEq, Repr

/-- The metadata `createCheckoutSessionForDonation` attaches
(src/index.js lines 475-482): no product, plan or role fields. -/
def donationMetadata (purchaseId guildId userId : String) (amountMinor : Nat) : SessionMeta :=
  { purchase_id := some purchaseId
    guild_id := some guildId
    user_id := some userId
    type := some "donation"
    amount_minor := some amountMinor
    currency := some CURRENCY }

/-- The filter `{ purchaseId, stripeSessionId: session.id }` of the primary
paid-transition update (src/index.js line 1051). -/
def purchaseKeyMatch (purchaseId sid : String) (p : Purchase) : Bool :=
  p.purchaseId == purchaseId && p.stripeSessionId == some sid

/-- The filter `{ stripeSessionId: session.id }` of the fallback upsert
(src/index.js line 1067). -/
def sessionMatch (sid : String) (p : Purchase) : Bool :=
  p.stripeSessionId == some sid

/-- The `$set` part of the paid-transition update (src/index.js
lines 1052-1062 and 1079-1087): unconditionally mark the document paid and
refresh payment/subscription references. -/
def setPaidFields (now : Nat) (paymentIntentId subscriptionId : Option String)
    (currentPeriodEnd : Option Nat) (subscriptionStatus : Option String)
    (cancelAtPeriodEnd : Option Bool) (p : Purchase) : Purchase :=
  { p with
    status := "paid"
    paidAt := some now
    stripePaymentIntentId := paymentIntentId
    stripeSubscriptionId := subscriptionId
    currentPeriodEnd := currentPeriodEnd
    subscriptionStatus := subscriptionStatus
    cancelAtPeriodEnd := cancelAtPeriodEnd }

/-- The `checkout.session.completed` handler of src/index.js (lines 1028-1125).

* `subs` is the Stripe subscriptions oracle (`stripe.subscriptions.retrieve`).
* `guildFetchOk` records whether `client.guilds.fetch` succeeds; the
  Discord side effects after it are returned as `Effect`s.

Returns the updated purchases collection and the attempted side effects.
Missing metadata or a foreign guild acknowledges without action. -/
def handleCheckoutCompleted (subs : String → SubInfo) (guildFetchOk : Bool) (now : Nat)
    (session : CheckoutSession) (purchases : List Purchase) :
    List Purchase × List Effect :=
  match session.metadata.purchase_id, session.metadata.guild_id,
      session.metadata.user_id, session.metadata.type with
  | some purchaseId, some guildId, some userId, some ty =>
      if guildId ≠ ALLOWED_GUILD_ID then (purchases, [])
      else
        let currentPeriodEnd := match session.subscription with
          | some sid => (subs sid).current_period_end
          | none => none
        let subscriptionStatus := session.subscription.map (fun sid => (subs sid).status)
        let cancelAtPeriodEnd := session.subscription.map (fun sid => (subs sid).cancel_at_period_end)
        let upd := setPaidFields now session.payment_intent session.subscription
          currentPeriodEnd subscriptionStatus cancelAtPeriodEnd
        -- findOneAndUpdate on { purchaseId, stripeSessionId } (lines 1050-1064)
        let r1 := updateFirst (purchaseKeyMatch purchaseId session.id) upd purchases
        let purchases1 :=
          if r1.2 then r1.1
          else
            -- fallback: updateOne on { stripeSessionId } with upsert and
            -- $setOnInsert (lines 1065-1091)
            let r2 := updateFirst (sessionMatch session.id) upd r1.1
            if r2.2 then r2.1
            else
              r2.1 ++ [upd { purchaseId := purchaseId
                             guildId := guildId
                             userId := userId
                             type := ty
                             amountMinor := session.metadata.amount_minor.getD 0
                             currency := session.metadata.currency.getD CURRENCY
                             stripeSessionId := some session.id
                             status := "paid"
                             createdAt := now }]
        if !guildFetchOk then (purchases1, [])
        else
          let roleEffects :=
            if ty == "product" then
              match session.metadata.role_id with
              | some roleId => [Effect.roleGrant userId roleId]
              | none => []
            else []
          let thanksEffects :=
            if ty == "product" then [Effect.thanksMessage userId purchaseId] else []
          (purchases1, roleEffects ++ [Effect.purchaseLog] ++ thanksEffects)
  | _, _, _, _ => (purchases, [])

/-! ### C1: replaying a paid event is idempotent -/

lemma purchaseKeyMatch_setPaid (pid sid : String) (now : Nat) (a b : Option String)
    (c : Option Nat) (d : Option String) (e : Option Bool) (p : Purchase) :
    purchaseKeyMatch pid sid (setPaidFields now a b c d e p) = purchaseKeyMatch pid sid p := by
  simp [purchaseKeyMatch, setPaidFields]

lemma sessionMatch_setPaid (sid : String) (now : Nat) (a b : Option String)
    (c : Option Nat) (d : Option String) (e : Option Bool) (p : Purchase) :
    sessionMatch sid (setPaidFields now a b c d e p) = sessionMatch sid p := by
  simp [sessionMatch, setPaidFields]

lemma purchaseKeyMatch_imp_sessionMatch (pid sid : String) (p : Purchase)
    (h : purchaseKeyMatch pid sid p = true) : sessionMatch sid p = true := by
  simp only [purchaseKeyMatch, Bool.and_eq_true] at h
  exact h.2

/-- One delivery of a complete, tenant-matching `checkout.session.completed`
event whose (purchase ID, session ID) pair matches an existing Purchase:
afterwards exactly one row carries the pair, every row carrying it is
`paid`, the pair still matches a row, and the session ID is still unique. -/
lemma c1_step (subs : String → SubInfo) (guildFetchOk : Bool) (now : Nat)
    (session : CheckoutSession) (pid gid uid ty : String) (ps : List Purchase)
    (hpid : session.metadata.purchase_id = some pid)
    (hgid : session.metadata.guild_id = some gid)
    (huid : session.metadata.user_id = some uid)
    (hty : session.metadata.type = some ty)
    (hallowed : gid = ALLOWED_GUILD_ID)
    (hex : ps.any (purchaseKeyMatch pid session.id) = true)
    (huniq : (ps.filter (sessionMatch session.id)).length ≤ 1) :
    ((handleCheckoutCompleted subs guildFetchOk now session ps).1.filter
        (purchaseKeyMatch pid session.id)).length = 1 ∧
    (∀ p ∈ (handleCheckoutCompleted subs guildFetchOk now session ps).1,
        purchaseKeyMatch pid session.id p = true → p.status = "paid") ∧
    (handleCheckoutCompleted subs guildFetchOk now session ps).1.any
        (purchaseKeyMatch pid session.id) = true ∧
    ((handleCheckoutCompleted subs guildFetchOk now session ps).1.filter
        (sessionMatch session.id)).length ≤ 1 := by
  have hout : (handleCheckoutCompleted subs guildFetchOk now session ps).1 =
      (updateFirst (purchaseKeyMatch pid session.id)
        (setPaidFields now session.payment_intent session.subscription
          (match session.subscription with
            | some sid => (subs sid).current_period_end
            | none => none)
          (session.subscription.map (fun sid => (subs sid).status))
          (session.subscription.map (fun sid => (subs sid).cancel_at_period_end))) ps).1 := by
    unfold handleCheckoutCompleted
    rw [hpid, hgid, huid, hty]
    have hga : ¬ gid ≠ ALLOWED_GUILD_ID := by simp [hallowed]
    simp only [hga, if_false, ite_false]
    rw [updateFirst_snd, hex]
    simp only [if_true, ite_true]
    cases guildFetchOk <;> simp
  set upd := setPaidFields now session.payment_intent session.subscription
    (match session.subscription with
      | some sid => (subs sid).current_period_end
      | none => none)
    (session.subscription.map (fun sid => (subs sid).status))
    (session.subscription.map (fun sid => (subs sid).cancel_at_period_end)) with hupd
  obtain ⟨l1, x, l2, hl, h1, hx, hr⟩ :=
    updateFirst_decomp (purchaseKeyMatch pid session.id) upd ps hex
  rw [hout, hr]
  have hqupd : purchaseKeyMatch pid session.id (upd x) = true := by
    rw [hupd, purchaseKeyMatch_setPaid]
    exact hx
  have hsessx : sessionMatch session.id x = true := purchaseKeyMatch_imp_sessionMatch _ _ _ hx
  have hsessupd : sessionMatch session.id (upd x) = true := by
    rw [hupd, sessionMatch_setPaid]
    exact hsessx
  -- the session ID is unique, so nothing in l2 carries it
  have hl2sess : ∀ p ∈ l2, sessionMatch session.id p = false := by
    intro p hp
    by_contra hcon
    have hptrue : sessionMatch session.id p = true := by
      cases hh : sessionMatch session.id p
      · exact absurd hh hcon
      · rfl
    have : 2 ≤ (ps.filter (sessionMatch session.id)).length := by
      rw [hl, List.filter_append, List.filter_cons_of_pos hsessx]
      have hmem : p ∈ l2.filter (sessionMatch session.id) :=
        List.mem_filter.mpr ⟨hp, hptrue⟩
      have hpos : 0 < (l2.filter (sessionMatch session.id)).length :=
        List.length_pos_of_mem hmem
      simp only [List.length_append, List.length_cons]
      omega
    omega
  have hl2key : ∀ p ∈ l2, purchaseKeyMatch pid session.id p = false := by
    intro p hp
    cases hh : purchaseKeyMatch pid session.id p
    · rfl
    · exact absurd (purchaseKeyMatch_imp_sessionMatch _ _ _ hh) (by simp [hl2sess p hp])
  have hfilterl1 : l1.filter (purchaseKeyMatch pid session.id) = [] :=
    List.filter_eq_nil_iff.mpr (fun a ha => by simp [h1 a ha])
  have hfilterl2 : l2.filter (purchaseKeyMatch pid session.id) = [] :=
    List.filter_eq_nil_iff.mpr (fun a ha => by simp [hl2key a ha])
  refine ⟨?_, ?_, ?_, ?_⟩
  · rw [List.filter_append, List.filter_cons_of_pos hqupd, hfilterl1, hfilterl2]
    rfl
  · intro p hp hq
    rcases List.mem_append.mp hp with hp | hp
    · exact absurd hq (by simp [h1 p hp])
    · rcases List.mem_cons.mp hp with hp | hp
      · subst hp
        rw [hupd]
        rfl
      · exact absurd hq (by simp [hl2key p hp])
  · exact List.any_eq_true.mpr ⟨upd x, List.mem_append.mpr (Or.inr (List.mem_cons_self _ _)), hqupd⟩
  · rw [List.filter_append, List.filter_cons_of_pos hsessupd]
    rw [hl, List.filter_append, List.filter_cons_of_pos hsessx] at huniq
    simpa using huniq

/-- C1: delivering the same verified `checkout.session.completed` event a
second time — same session ID and purchase ID, matching an existing
Purchase, with the session ID unique in the collection as its unique index
guarantees — leaves exactly one Purchase row for that
(purchase ID, session ID) pair, and that row is in `paid` status. -/
theorem c1_paid_webhook_replay_idempotent (subs : String → SubInfo)
    (g1 g2 : Bool) (now1 now2 : Nat) (session : CheckoutSession)
    (pid gid uid ty : String) (ps : List Purchase)
    (hpid : session.metadata.purchase_id = some pid)
    (hgid : session.metadata.guild_id = some gid)
    (huid : session.metadata.user_id = some uid)
    (hty : session.metadata.type = some ty)
    (hallowed : gid = ALLOWED_GUILD_ID)
    (hex : ∃ p ∈ ps, p.purchaseId = pid ∧ p.stripeSessionId = some session.id)
    (huniq : (ps.filter (sessionMatch session.id)).length ≤ 1) :
    (((handleCheckoutCompleted subs g2 now2 session
          (handleCheckoutCompleted subs g1 now1 session ps).1).1).filter
        (purchaseKeyMatch pid session.id)).length = 1 ∧
    (∀ p ∈ (handleCheckoutCompleted subs g2 now2 session
          (handleCheckoutCompleted subs g1 now1 session ps).1).1,
        purchaseKeyMatch pid session.id p = true → p.status = "paid") := by
  have hexb : ps.any (purchaseKeyMatch pid session.id) = true := by
    obtain ⟨p, hp, h1, h2⟩ := hex
    refine List.any_eq_true.mpr ⟨p, hp, ?_⟩
    simp [purchaseKeyMatch, h1, h2]
  obtain ⟨_, _, hany1, huniq1⟩ :=
    c1_step subs g1 now1 session pid gid uid ty ps hpid hgid huid hty hallowed hexb huniq
  obtain ⟨hlen2, hpaid2, _, _⟩ :=
    c1_step subs g2 now2 session pid gid uid ty
      (handleCheckoutCompleted subs g1 now1 session ps).1
      hpid hgid huid hty hallowed hany1 huniq1
  exact ⟨hlen2, hpaid2⟩

/-- Concrete replay scenario for the C1 witness: the purchase row created
at checkout initiation, and the paid event that references it. -/
def c1SamplePurchase : Purchase :=
  { purchaseId := "VT-1"
    guildId := ALLOWED_GUILD_ID
    userId := "u1"
    type := "product"
    amountMinor := 999
    stripeSessionId := some "cs_1"
    status := "created"
    createdAt := 0
    roleId := some "r1" }

/-- The paid event for `c1SamplePurchase`. -/
def c1SampleSession : CheckoutSession :=
  { id := "cs_1"
    payment_intent := some "pi_1"
    metadata :=
      { purchase_id := some "VT-1"
        guild_id := some ALLOWED_GUILD_ID
        user_id := some "u1"
        type := some "product"
        product_id := some "prod1"
        plan_key := some "one_time"
        role_id := some "r1"
        amount_minor := some 999
        currency := some CURRENCY } }

/-- Closed witness for `c1_paid_webhook_replay_idempotent` on the concrete
replay scenario. -/
theorem c1_paid_webhook_replay_idempotent_witness :
    (((handleCheckoutCompleted (fun _ => ⟨"active", false, none⟩) true 2 c1SampleSession
          (handleCheckoutCompleted (fun _ => ⟨"active", false, none⟩) true 1 c1SampleSession
            [c1SamplePurchase]).1).1).filter
        (purchaseKeyMatch "VT-1" c1SampleSession.id)).length = 1 ∧
    (∀ p ∈ (handleCheckoutCompleted (fun _ => ⟨"active", false, none⟩) true 2 c1SampleSession
          (handleCheckoutCompleted (fun _ => ⟨"active", false, none⟩) true 1 c1SampleSession
            [c1SamplePurchase]).1).1,
        purchaseKeyMatch "VT-1" c1SampleSession.id p = true → p.status = "paid") :=
  c1_paid_webhook_replay_idempotent (fun _ => ⟨"active", false, none⟩) true true 1 2
    c1SampleSession "VT-1" ALLOWED_GUILD_ID "u1" "product" [c1SamplePurchase]
    rfl rfl rfl rfl rfl
    ⟨c1SamplePurchase, by simp, rfl, rfl⟩
    (by decide)

/-! ## Subscription lifecycle events (src/index.js lines 1127-1178) -/

/-- The `customer.subscription.updated` handler (src/index.js lines 1127-1141):
refresh subscription side-state on every paid purchase row of that
subscription, leaving `status` alone. -/
def handleSubUpdated (now : Nat) (subId : String) (info : SubInfo)
    (ps : List Purchase) : List Purchase :=
  ps.map (fun p =>
    if p.stripeSubscriptionId == some subId && p.status == "paid" then
      { p with
        subscriptionStatus := some info.status
        cancelAtPeriodEnd := some info.cancel_at_period_end
        currentPeriodEnd := info.current_period_end
        subscriptionUpdatedAt := some now }
    else p)

/-- Mongo `findOne` with a descending `paidAt` sort: the element with the largest
`paidAt` (the earlier of two ties). -/
def maxByPaidAt : List Purchase → Option Purchase
  | [] => none
  | p :: ps =>
      match maxByPaidAt ps with
      | none => some p
      | some q => if p.paidAt.getD 0 < q.paidAt.getD 0 then some q else some p

/-- The purchase the subscription-deleted handler fetches (src/index.js
lines 1145-1148): the most recent paid product purchase of the
subscription. -/
def mostRecentPaidSub (subId : String) (ps : List Purchase) : Option Purchase :=
  maxByPaidAt (ps.filter (fun p =>
    p.stripeSubscriptionId == some subId && p.status == "paid" && p.type == "product"))

/-- The `customer.subscription.deleted` handler (src/index.js lines 1143-1178): remove
the granted role from the buyer of the most recent paid product purchase,
log, then mark every *paid* purchase row of the subscription ended. -/
def handleSubDeleted (guildFetchOk : Bool) (now : Nat) (subId : String)
    (ps : List Purchase) : List Purchase × List Effect :=
  let effects :=
    match mostRecentPaidSub subId ps with
    | some purchase =>
        if guildFetchOk then
          (match purchase.roleId with
            | some roleId => [Effect.roleRemove purchase.userId roleId]
            | none => []) ++ [Effect.purchaseLog]
        else []
    | none => []
  let updated := ps.map (fun p =>
    if p.stripeSubscriptionId == some subId && p.status == "paid" then
      { p with subscriptionStatus := some "canceled", subscriptionEndedAt := some now }
    else p)
  (updated, effects)

/-! ## The webhook endpoint (src/index.js lines 1019-1184) -/

/-- One ticket document (the `tickets` collection). -/
structure Ticket where
  guildId : String
  channelId : String
  userId : String
  status : String
  createdAt : Nat := 0
deriving DecidableEq, Repr

/-- One refund request document (the `refund_requests` collection). -/
structure RefundRequest where
  requestId : String
  purchaseId : String
  guildId : String
  requestedBy : String
  status : String
  createdAt : Nat := 0
  approvedAt : Option Nat := none
  approvedBy : Option String := none
  rejectedAt : Option Nat := none
  rejectedBy : Option String := none
  failedAt : Option Nat := none
  failureReason : Option String := none
  executedAt : Option Nat := none
  stripeRefundId : Option String := none
deriving DecidableEq, Repr

/-- One per-guild config document (the `shop_config` collection). -/
structure GuildConfig where
  guildId : String
  supportRoleId : Option String := none
  thanksChannelId : Option String := none
  purchaseLogChannelId : Option String := none
  ticketPanelMessageId : Option String := none
  updatedAt : Nat := 0
deriving DecidableEq, Repr

/-- All persistent collections visible to the webhook endpoint. -/
structure WebhookState where
  purchases : List Purchase
  entitlements : List Entitlement
  refundRequests : List RefundRequest
  tickets : List Ticket
  configs : List GuildConfig
deriving DecidableEq, Repr

/-- A verified Stripe event, as `stripe.webhooks.constructEvent` returns it. -/
inductive StripeEvent where
  | checkoutSessionCompleted (session : CheckoutSession)
  | customerSubscriptionUpdated (subId : String) (info : SubInfo)
  | customerSubscriptionDeleted (subId : String)
  | unknown (eventType : String)
deriving DecidableEq, Repr

/-- HTTP responses the webhook endpoint produces. -/
inductive HttpResponse where
  | jsonReceived
  | badRequest
  | serverError
deriving DecidableEq, Repr

/-- The `POST /stripe/webhook` endpoint (src/index.js lines 1019-1184).  The Stripe SDK's
`constructEvent` is the external signature check: its outcome is the
`verifiedEvent` argument, `none` when the signature does not validate (the
catch branch at lines 1023-1026, which runs before anything else and
returns 400).  Channel bookkeeping for the log message is summarized by
the `purchaseLog` effect. -/
def stripeWebhook (subs : String → SubInfo) (guildFetchOk : Bool) (now : Nat)
    (verifiedEvent : Option StripeEvent) (st : WebhookState) :
    WebhookState × HttpResponse × List Effect :=
  match verifiedEvent with
  | none => (st, .badRequest, [])
  | some ev =>
      match ev with
      | .checkoutSessionCompleted session =>
          let r := handleCheckoutCompleted subs guildFetchOk now session st.purchases
          ({ st with purchases := r.1 }, .jsonReceived, r.2)
      | .customerSubscriptionUpdated subId info =>
          ({ st with purchases := handleSubUpdated now subId info st.purchases },
            .jsonReceived, [])
      | .customerSubscriptionDeleted subId =>
          let r := handleSubDeleted guildFetchOk now subId st.purchases
          ({ st with purchases := r.1 }, .jsonReceived, r.2)
      | .unknown _ => (st, .jsonReceived, [])

/-- C2: a webhook request whose signature does not validate gets an HTTP
400 response, mutates no collection (purchases, entitlements, refund
requests, tickets, config), and triggers no external side effect —
whatever event payload it carried, because verification precedes all
event processing. -/
theorem c2_invalid_signature_no_mutation (subs : String → SubInfo)
    (guildFetchOk : Bool) (now : Nat) (st : WebhookState) :
    stripeWebhook subs guildFetchOk now none st = (st, HttpResponse.badRequest, []) ∧
    (stripeWebhook subs guildFetchOk now none st).1.purchases = st.purchases ∧
    (stripeWebhook subs guildFetchOk now none st).1.entitlements = st.entitlements ∧
    (stripeWebhook subs guildFetchOk now none st).1.refundRequests = st.refundRequests ∧
    (stripeWebhook subs guildFetchOk now none st).1.tickets = st.tickets ∧
    (stripeWebhook subs guildFetchOk now none st).1.configs = st.configs :=
  ⟨rfl, rfl, rfl, rfl, rfl, rfl⟩

/-! ### C8: subscription-deleted reclaims access -/

lemma maxByPaidAt_ne_nil (a : Purchase) (l : List Purchase) :
    maxByPaidAt (a :: l) ≠ none := by
  unfold maxByPaidAt
  split
  · simp
  · split <;> simp

lemma maxByPaidAt_mem (l : List Purchase) (p : Purchase) (h : maxByPaidAt l = some p) :
    p ∈ l := by
  induction l with
  | nil => simp [maxByPaidAt] at h
  | cons a l ih =>
      unfold maxByPaidAt at h
      split at h
      · injection h with h
        subst h
        exact List.mem_cons_self _ _
      · rename_i q heq
        split at h
        · injection h with h
          subst h
          exact List.mem_cons_of_mem _ (ih heq)
        · injection h with h
          subst h
          exact List.mem_cons_self _ _

lemma maxByPaidAt_max (l : List Purchase) :
    ∀ p : Purchase, maxByPaidAt l = some p →
      ∀ q ∈ l, q.paidAt.getD 0 ≤ p.paidAt.getD 0 := by
  induction l with
  | nil => intro p h; simp [maxByPaidAt] at h
  | cons a l ih =>
      intro p h q hq
      unfold maxByPaidAt at h
      split at h
      · rename_i heq
        injection h with h
        subst h
        have hl : l = [] := by
          cases l with
          | nil => rfl
          | cons b l2 => exact absurd heq (maxByPaidAt_ne_nil b l2)
        subst hl
        rcases List.mem_cons.mp hq with hq | hq
        · subst hq; exact le_refl _
        · simp at hq
      · rename_i m heq
        rcases List.mem_cons.mp hq with hq | hq
        · subst hq
          split at h
          · rename_i hlt
            injection h with h
            subst h
            exact hlt.le
          · injection h with h
            subst h
            exact le_refl _
        · split at h
          · injection h with h
            subst h
            exact ih _ heq q hq
          · rename_i hlt
            injection h with h
            subst h
            have hqm := ih m heq q hq
            omega

/-- Concrete scenario for C8: a paid subscription purchase. -/
def c8PaidPurchase : Purchase :=
  { purchaseId := "VT-A"
    guildId := ALLOWED_GUILD_ID
    userId := "u1"
    type := "product"
    stripeSessionId := some "cs_A"
    status := "paid"
    paidAt := some 100
    stripeSubscriptionId := some "sub_1"
    subscriptionStatus := some "active"
    roleId := some "r1" }

/-- Concrete scenario for C8: an already-refunded purchase row of the same
subscription, whose `subscriptionStatus` still reads `active`. -/
def c8RefundedPurchase : Purchase :=
  { purchaseId := "VT-B"
    guildId := ALLOWED_GUILD_ID
    userId := "u1"
    type := "product"
    stripeSessionId := some "cs_B"
    status := "refunded"
    paidAt := some 50
    stripeSubscriptionId := some "sub_1"
    subscriptionStatus := some "active"
    roleId := some "r1" }

/-- C8 counterexample: the claim requires an ended `subscriptionStatus` on
*all* Purchase rows sharing the subscription reference; the handler's
`updateMany` filter also requires `status: "paid"`, so a refunded row of
the same subscription keeps its old `subscriptionStatus`. -/
theorem c8_counterexample :
    (handleSubDeleted true 1000 "sub_1" [c8PaidPurchase, c8RefundedPurchase]).1 =
      [{ c8PaidPurchase with
          subscriptionStatus := some "canceled", subscriptionEndedAt := some 1000 },
        c8RefundedPurchase] ∧
    c8RefundedPurchase.stripeSubscriptionId = some "sub_1" ∧
    c8RefundedPurchase.subscriptionStatus = some "active" ∧
    c8PaidPurchase.stripeSubscriptionId = some "sub_1" ∧
    c8PaidPurchase.status = "paid" :=
  ⟨by decide, rfl, rfl, rfl, rfl⟩

/-- C8 (amended): a `customer.subscription.deleted` event removes the
granted role from the buyer of the most recent paid product Purchase of
that subscription, and sets `subscriptionStatus` to `canceled` on every
*paid* Purchase row sharing the subscription reference, while every other
row — different subscription reference, or not in `paid` status — is left
entirely unchanged. -/
theorem c8_subscription_deleted (guildFetchOk : Bool) (now : Nat) (subId : String)
    (ps : List Purchase) :
    (∀ i : Nat, (handleSubDeleted guildFetchOk now subId ps).1.get? i =
      (ps.get? i).map (fun p =>
        if p.stripeSubscriptionId == some subId && p.status == "paid" then
          { p with subscriptionStatus := some "canceled", subscriptionEndedAt := some now }
        else p)) ∧
    (∀ purchase roleId, mostRecentPaidSub subId ps = some purchase →
      guildFetchOk = true → purchase.roleId = some roleId →
      Effect.roleRemove purchase.userId roleId ∈ (handleSubDeleted guildFetchOk now subId ps).2) ∧
    (∀ purchase, mostRecentPaidSub subId ps = some purchase →
      purchase ∈ ps ∧ purchase.stripeSubscriptionId = some subId ∧
        purchase.status = "paid" ∧ purchase.type = "product" ∧
        ∀ q ∈ ps, q.stripeSubscriptionId = some subId → q.status = "paid" →
          q.type = "product" → q.paidAt.getD 0 ≤ purchase.paidAt.getD 0) := by
  refine ⟨?_, ?_, ?_⟩
  · intro i
    show (ps.map _).get? i = _
    rw [List.get?_map]
  · intro purchase roleId hmost hg hrole
    show Effect.roleRemove purchase.userId roleId ∈
      (match mostRecentPaidSub subId ps with
        | some purchase =>
            if guildFetchOk then
              (match purchase.roleId with
                | some roleId => [Effect.roleRemove purchase.userId roleId]
                | none => []) ++ [Effect.purchaseLog]
            else []
        | none => [])
    rw [hmost]
    subst hg
    simp [hrole]
  · intro purchase hmost
    unfold mostRecentPaidSub at hmost
    have hmem := maxByPaidAt_mem _ _ hmost
    have hmax := maxByPaidAt_max _ _ hmost
    have hpred := (List.mem_filter.mp hmem).2
    simp only [Bool.and_eq_true, beq_iff_eq] at hpred
    refine ⟨(List.mem_filter.mp hmem).1, hpred.1.1, hpred.1.2, hpred.2, ?_⟩
    intro q hq h1 h2 h3
    exact hmax q (List.mem_filter.mpr ⟨hq, by simp [h1, h2, h3]⟩)

/-- Closed witness for `c8_subscription_deleted` on the concrete scenario:
the paid row is the most recent paid purchase of `sub_1`, and its buyer's
role removal is among the effects. -/
theorem c8_subscription_deleted_witness :
    Effect.roleRemove c8PaidPurchase.userId "r1" ∈
      (handleSubDeleted true 1000 "sub_1" [c8PaidPurchase, c8RefundedPurchase]).2 :=
  (c8_subscription_deleted true 1000 "sub_1" [c8PaidPurchase, c8RefundedPurchase]).2.1
    c8PaidPurchase "r1" (by decide) rfl rfl

/-! ## Refund approval workflow (src/index.js lines 499-518 and 914-998) -/

/-- The Stripe calls `executeRefundInternal` makes, as an oracle:
`refundCreate pi` is `stripe.refunds.create({payment_intent: pi})` (refund
id on success, the thrown message on failure); `subLatestInvoicePI sid` is
the expanded `latest_invoice.payment_intent` id of
`stripe.subscriptions.retrieve(sid, ...)`. -/
structure StripeRefundOracle where
  refundCreate : String → Except String String
  subLatestInvoicePI : String → Except String (Option String)

/-- Source `executeRefundInternal` (src/index.js lines 499-518): refund the direct
payment intent if present, otherwise refund the subscription's latest
invoice payment (if any) and cancel the subscription outright (its own
failure swallowed by `.catch`); with neither reference, throw.  Returns
the thrown message or the optional refund id, plus the Stripe calls
attempted. -/
def executeRefundInternal (o : StripeRefundOracle) (p : Purchase) :
    Except String (Option String) × List Effect :=
  match p.stripePaymentIntentId with
  | some pi =>
      (match o.refundCreate pi with
        | .ok refundId => (.ok (some refundId), [.stripeRefundCreate pi])
        | .error e => (.error e, [.stripeRefundCreate pi]))
  | none =>
      match p.stripeSubscriptionId with
      | some sid =>
          (match o.subLatestInvoicePI sid with
            | .error e => (.error e, [])
            | .ok (some pi) =>
                (match o.refundCreate pi with
                  | .ok refundId =>
                      (.ok (some refundId), [.stripeRefundCreate pi, .stripeSubCancel sid])
                  | .error e => (.error e, [.stripeRefundCreate pi]))
            | .ok none => (.ok none, [.stripeSubCancel sid]))
      | none => (.error "No Stripe payment references on record.", [])

/-- The collections the refund button handler touches. -/
structure BotState where
  purchases : List Purchase
  refundRequests : List RefundRequest
deriving DecidableEq, Repr

/-- Mongo `updateOne` on the refund-requests collection keyed by request id. -/
def updateRequest (requestId : String) (f : RefundRequest → RefundRequest)
    (rs : List RefundRequest) : List RefundRequest :=
  (updateFirst (fun r => r.requestId == requestId) f rs).1

/-- The `$set` of the reject branch (src/index.js lines 925-928). -/
def markRejected (now : Nat) (actorId : String) (r : RefundRequest) : RefundRequest :=
  { r with status := "rejected", rejectedAt := some now, rejectedBy := some actorId }

/-- The `$set` of the failure updates (src/index.js lines 939-942, 952-955
and 988-991). -/
def markFailed (now : Nat) (reason : String) (r : RefundRequest) : RefundRequest :=
  { r with status := "failed", failedAt := some now, failureReason := some reason }

/-- The `$set` of the approval update (src/index.js lines 964-967). -/
def markApproved (now : Nat) (actorId : String) (r : RefundRequest) : RefundRequest :=
  { r with status := "approved", approvedAt := some now, approvedBy := some actorId }

/-- The `$set` of the executed update (src/index.js lines 977-980). -/
def markExecuted (now : Nat) (r : RefundRequest) : RefundRequest :=
  { r with status := "executed", executedAt := some now }

/-- The `$set` of the purchase refunded update (src/index.js
lines 973-976). -/
def markRefunded (now : Nat) (refundId : Option String) (p : Purchase) : Purchase :=
  { p with status := "refunded", refundedAt := some now, stripeRefundId := refundId }

/-- The window re-check at approval time (src/index.js lines 950-951):
false when `paidAt` is missing or `Date.now() - paidAt.getTime()` exceeds
`REFUND_WINDOW_MS` (compared over `Int`, as JS does). -/
def refundWindowOk (now : Nat) (paidAt : Option Nat) : Bool :=
  match paidAt with
  | some t => decide ((now : Int) - (t : Int) ≤ (REFUND_WINDOW_MS : Int))
  | none => false

/-- The `refund_approve:` / `refund_reject:` button handler of src/index.js
(lines 914-998).  `action` is the customId head; `gid` the interaction's
guild; JS `Date.now() - paidAt.getTime() > REFUND_WINDOW_MS` is compared
over `Int`.  Message/embed edits are view-layer and produce no `Effect`;
`reply` marks early denials. -/
def refundAction (o : StripeRefundOracle) (now : Nat) (gid actorId action requestId : String)
    (st : BotState) : BotState × List Effect :=
  if actorId ≠ REFUND_APPROVER_USER_ID then (st, [.reply "not allowed"])
  else
    match st.refundRequests.find? (fun r => r.requestId == requestId && r.guildId == gid) with
    | none => (st, [.reply "not found"])
    | some reqDoc =>
        if reqDoc.status ≠ "pending" then (st, [.reply "already actioned"])
        else if action = "refund_reject" then
          ({ st with
              refundRequests := updateRequest requestId (markRejected now actorId)
                st.refundRequests }, [])
        else
          match st.purchases.find?
              (fun p => p.purchaseId == reqDoc.purchaseId && p.guildId == gid) with
          | none =>
              ({ st with
                  refundRequests := updateRequest requestId
                    (markFailed now "Purchase not found") st.refundRequests }, [])
          | some purchase =>
              if !refundWindowOk now purchase.paidAt then
                ({ st with
                    refundRequests := updateRequest requestId
                      (markFailed now "Refund window expired") st.refundRequests }, [])
              else
                let rs1 := updateRequest requestId (markApproved now actorId) st.refundRequests
                match executeRefundInternal o purchase with
                | (.ok refundId, effs) =>
                    let roleEffects :=
                      if purchase.type == "product" then
                        match purchase.roleId with
                        | some roleId => [Effect.roleRemove purchase.userId roleId]
                        | none => []
                      else []
                    let ps1 := (updateFirst (fun p => p.purchaseId == purchase.purchaseId)
                      (markRefunded now refundId) st.purchases).1
                    let rs2 := updateRequest requestId (markExecuted now) rs1
                    ({ purchases := ps1, refundRequests := rs2 }, effs ++ roleEffects)
                | (.error e, effs) =>
                    ({ st with
                        refundRequests := updateRequest requestId
                          (markFailed now (e.take 200)) rs1 }, effs)

/-! ### C3/C4/C5: refund workflow theorems -/

lemma find?_updateRequest (requestId : String) (f : RefundRequest → RefundRequest)
    (hf : ∀ r, (f r).requestId = r.requestId) (rs : List RefundRequest) :
    (updateRequest requestId f rs).find? (fun r => r.requestId == requestId) =
      (rs.find? (fun r => r.requestId == requestId)).map f := by
  unfold updateRequest
  exact find?_updateFirst _ f (fun x => by simp [hf x]) rs

lemma markFailed_requestId (now : Nat) (reason : String) (r : RefundRequest) :
    (markFailed now reason r).requestId = r.requestId := rfl

lemma markApproved_requestId (now : Nat) (actorId : String) (r : RefundRequest) :
    (markApproved now actorId r).requestId = r.requestId := rfl

/-- C5: once a RefundRequest has left `pending` (approved, rejected,
executed or failed), any further approve or reject action on it changes no
state at all and performs no financial action. -/
theorem c5_refund_single_use (o : StripeRefundOracle) (now : Nat)
    (gid actorId action requestId : String) (st : BotState) (reqDoc : RefundRequest)
    (hfind : st.refundRequests.find?
        (fun r => r.requestId == requestId && r.guildId == gid) = some reqDoc)
    (hnotpending : reqDoc.status ≠ "pending") :
    (refundAction o now gid actorId action requestId st).1 = st ∧
    ∀ e ∈ (refundAction o now gid actorId action requestId st).2,
      e.isFinancial = false := by
  unfold refundAction
  split
  · exact ⟨rfl, by intro e he; simp only [List.mem_singleton] at he; subst he; rfl⟩
  · rw [hfind]
    dsimp only
    rw [if_pos hnotpending]
    exact ⟨rfl, by intro e he; simp only [List.mem_singleton] at he; subst he; rfl⟩

/-- Closed witness for `c5_refund_single_use`: a second action on an
already-rejected request is a no-op. -/
theorem c5_refund_single_use_witness :
    (refundAction ⟨fun _ => .error "e", fun _ => .error "e"⟩ 500 ALLOWED_GUILD_ID
        REFUND_APPROVER_USER_ID "refund_approve" "RR-1"
        ⟨[], [{ requestId := "RR-1", purchaseId := "VT-1", guildId := ALLOWED_GUILD_ID,
                requestedBy := "u2", status := "rejected" }]⟩).1 =
      ⟨[], [{ requestId := "RR-1", purchaseId := "VT-1", guildId := ALLOWED_GUILD_ID,
              requestedBy := "u2", status := "rejected" }]⟩ :=
  (c5_refund_single_use ⟨fun _ => .error "e", fun _ => .error "e"⟩ 500 ALLOWED_GUILD_ID
    REFUND_APPROVER_USER_ID "refund_approve" "RR-1"
    ⟨[], [{ requestId := "RR-1", purchaseId := "VT-1", guildId := ALLOWED_GUILD_ID,
            requestedBy := "u2", status := "rejected" }]⟩
    { requestId := "RR-1", purchaseId := "VT-1", guildId := ALLOWED_GUILD_ID,
      requestedBy := "u2", status := "rejected" }
    (by decide) (by decide)).1

/-- Concrete refund scenario: a paid purchase with a direct payment
intent. -/
def c3Purchase : Purchase :=
  { purchaseId := "VT-1"
    guildId := ALLOWED_GUILD_ID
    userId := "u1"
    type := "product"
    amountMinor := 999
    stripeSessionId := some "cs_1"
    status := "paid"
    createdAt := 0
    roleId := some "r1"
    paidAt := some 100
    stripePaymentIntentId := some "pi_1" }

/-- Concrete refund scenario: the pending refund request on `c3Purchase`. -/
def c3Request : RefundRequest :=
  { requestId := "RR-1"
    purchaseId := "VT-1"
    guildId := ALLOWED_GUILD_ID
    requestedBy := "u2"
    status := "pending"
    createdAt := 150 }

/-- C4: approving a pending refund request after the 24-hour window (from
`paidAt`) has expired marks the request `failed` with reason
"Refund window expired", attempts no Stripe call, and leaves every
purchase row unchanged (the purchase stays `paid`). -/
theorem c4_window_recheck_on_approve (o : StripeRefundOracle) (now t : Nat)
    (gid actorId requestId : String) (st : BotState) (reqDoc : RefundRequest)
    (purchase : Purchase)
    (hactor : actorId = REFUND_APPROVER_USER_ID)
    (hfindReq : st.refundRequests.find?
        (fun r => r.requestId == requestId) = some reqDoc)
    (hgid : reqDoc.guildId = gid)
    (hpending : reqDoc.status = "pending")
    (hfindP : st.purchases.find?
        (fun p => p.purchaseId == reqDoc.purchaseId && p.guildId == gid) = some purchase)
    (hpaidAt : purchase.paidAt = some t)
    (hexpired : (REFUND_WINDOW_MS : Int) < (now : Int) - (t : Int)) :
    (refundAction o now gid actorId "refund_approve" requestId st).1.purchases =
      st.purchases ∧
    ((refundAction o now gid actorId "refund_approve" requestId st).1.refundRequests.find?
        (fun r => r.requestId == requestId)).map
      (fun r => (r.status, r.failureReason)) =
      some ("failed", some "Refund window expired") ∧
    (refundAction o now gid actorId "refund_approve" requestId st).2 = [] := by
  have hfind2 : st.refundRequests.find?
      (fun r => r.requestId == requestId && r.guildId == gid) = some reqDoc :=
    find?_and_eq _ _ _ _ hfindReq (by simp [hgid])
  unfold refundAction
  rw [if_neg (by simp [hactor])]
  rw [hfind2]
  dsimp only
  rw [if_neg (by simp [hpending])]
  rw [if_neg (by decide : ¬ ("refund_approve" = "refund_reject"))]
  rw [hfindP]
  dsimp only
  have hw : refundWindowOk now purchase.paidAt = false := by
    rw [hpaidAt]
    unfold refundWindowOk
    simp only [decide_eq_false_iff_not]
    omega
  rw [hw]
  rw [if_pos (show (!false) = true from rfl)]
  refine ⟨rfl, ?_, rfl⟩
  rw [find?_updateRequest _ _ (markFailed_requestId now "Refund window expired"), hfindReq]
  rfl

/-- Closed witness for `c4_window_recheck_on_approve`: request filed while
the purchase was refundable, approved 200 ms after the window closed. -/
theorem c4_window_recheck_on_approve_witness :
    ((refundAction ⟨fun _ => .ok "re_1", fun _ => .ok none⟩ (REFUND_WINDOW_MS + 300)
          ALLOWED_GUILD_ID REFUND_APPROVER_USER_ID "refund_approve" "RR-1"
          ⟨[c3Purchase], [c3Request]⟩).1.refundRequests.find?
        (fun r => r.requestId == "RR-1")).map
      (fun r => (r.status, r.failureReason)) =
      some ("failed", some "Refund window expired") :=
  (c4_window_recheck_on_approve ⟨fun _ => .ok "re_1", fun _ => .ok none⟩
    (REFUND_WINDOW_MS + 300) 100 ALLOWED_GUILD_ID REFUND_APPROVER_USER_ID "RR-1"
    ⟨[c3Purchase], [c3Request]⟩ c3Request c3Purchase
    rfl (by decide) rfl rfl (by decide) rfl (by decide)).2.1

/-- C3: if the Stripe-side refund execution throws after approval, the
RefundRequest ends `failed` with the error text (truncated to 200
characters) as its failure reason, and the purchases collection is
untouched — in particular the purchase found for the request is still the
original `paid` row. -/
theorem c3_processor_failure_keeps_paid (o : StripeRefundOracle) (now t : Nat)
    (gid actorId requestId : String) (st : BotState) (reqDoc : RefundRequest)
    (purchase : Purchase) (e : String) (effs : List Effect)
    (hactor : actorId = REFUND_APPROVER_USER_ID)
    (hfindReq : st.refundRequests.find?
        (fun r => r.requestId == requestId) = some reqDoc)
    (hgid : reqDoc.guildId = gid)
    (hpending : reqDoc.status = "pending")
    (hfindP : st.purchases.find?
        (fun p => p.purchaseId == reqDoc.purchaseId && p.guildId == gid) = some purchase)
    (hpaid : purchase.status = "paid")
    (hpaidAt : purchase.paidAt = some t)
    (hwin : (now : Int) - (t : Int) ≤ (REFUND_WINDOW_MS : Int))
    (hexec : executeRefundInternal o purchase = (.error e, effs)) :
    (refundAction o now gid actorId "refund_approve" requestId st).1.purchases =
      st.purchases ∧
    ((refundAction o now gid actorId "refund_approve" requestId st).1.refundRequests.find?
        (fun r => r.requestId == requestId)).map
      (fun r => (r.status, r.failureReason)) =
      some ("failed", some (e.take 200)) ∧
    ((refundAction o now gid actorId "refund_approve" requestId st).1.purchases.find?
        (fun p => p.purchaseId == reqDoc.purchaseId && p.guildId == gid)) = some purchase ∧
    purchase.status = "paid" := by
  have hfind2 : st.refundRequests.find?
      (fun r => r.requestId == requestId && r.guildId == gid) = some reqDoc :=
    find?_and_eq _ _ _ _ hfindReq (by simp [hgid])
  unfold refundAction
  rw [if_neg (by simp [hactor])]
  rw [hfind2]
  dsimp only
  rw [if_neg (by simp [hpending])]
  rw [if_neg (by decide : ¬ ("refund_approve" = "refund_reject"))]
  rw [hfindP]
  dsimp only
  have hw : refundWindowOk now purchase.paidAt = true := by
    rw [hpaidAt]
    unfold refundWindowOk
    simpa using hwin
  rw [hw]
  rw [if_neg (show ¬ ((!true) = true) from by decide)]
  rw [hexec]
  dsimp only
  refine ⟨rfl, ?_, by rw [hfindP], hpaid⟩
  rw [find?_updateRequest _ _ (markFailed_requestId now (e.take 200))]
  rw [find?_updateRequest _ _ (markApproved_requestId now actorId), hfindReq]
  rfl

/-- Closed witness for `c3_processor_failure_keeps_paid`: Stripe declines
the refund of a paid purchase, the request fails, the purchase row is
untouched. -/
theorem c3_processor_failure_keeps_paid_witness :
    (refundAction ⟨fun _ => .error "card_declined", fun _ => .error "no sub"⟩ 200
        ALLOWED_GUILD_ID REFUND_APPROVER_USER_ID "refund_approve" "RR-1"
        ⟨[c3Purchase], [c3Request]⟩).1.purchases = [c3Purchase] ∧
    ((refundAction ⟨fun _ => .error "card_declined", fun _ => .error "no sub"⟩ 200
        ALLOWED_GUILD_ID REFUND_APPROVER_USER_ID "refund_approve" "RR-1"
        ⟨[c3Purchase], [c3Request]⟩).1.refundRequests.find?
        (fun r => r.requestId == "RR-1")).map
      (fun r => (r.status, r.failureReason)) =
      some ("failed", some ("card_declined".take 200)) := by
  have h := c3_processor_failure_keeps_paid
    ⟨fun _ => .error "card_declined", fun _ => .error "no sub"⟩ 200 100
    ALLOWED_GUILD_ID REFUND_APPROVER_USER_ID "RR-1"
    ⟨[c3Purchase], [c3Request]⟩ c3Request c3Purchase "card_declined"
    [.stripeRefundCreate "pi_1"]
    rfl (by decide) rfl rfl (by decide) rfl rfl (by decide) rfl
  exact ⟨h.1, h.2.1⟩

/-! ## Entitlement-variant webhook handler
(src/unnamed/part_000, entitlement variant, lines 2621-2758) -/

/-- One product document (the `products` collection), as the DM-upsell
branch reads it. -/
structure Product where
  id : String
  guildId : String
  name : String
  roleId : String
  prices : Prices
deriving DecidableEq, Repr

/-- A role-grant call to Discord. -/
def Effect.isRoleGrant : Effect → Bool
  | .roleGrant _ _ => true
  | _ => false

/-- An entitlement upsert write. -/
def Effect.isEntitlementUpsert : Effect → Bool
  | .entitlementUpsert _ _ _ => true
  | _ => false

/-- The `$set` of the paid-transition in the entitlement variant
(part_000 lines 2671-2681): also refreshes `planKey` and `productId` from
the metadata. -/
def setPaidFieldsEnt (now : Nat) (paymentIntentId subscriptionId : Option String)
    (currentPeriodEnd : Option Nat) (subscriptionStatus : Option String)
    (cancelAtPeriodEnd : Option Bool) (planKey productId : Option String)
    (p : Purchase) : Purchase :=
  { p with
    status := "paid"
    paidAt := some now
    stripePaymentIntentId := paymentIntentId
    stripeSubscriptionId := subscriptionId
    currentPeriodEnd := currentPeriodEnd
    subscriptionStatus := subscriptionStatus
    cancelAtPeriodEnd := cancelAtPeriodEnd
    planKey := planKey
    productId := productId }

/-- The `$set` of the entitlement upsert on a paid product purchase
(part_000 lines 2703-2722). -/
def entPaidSet (gid uid productId planKey : String) (referenceCode : Option String)
    (purchaseId : String) (subId : Option String) (currentPeriodEnd : Option Nat)
    (subscriptionStatus : Option String) (now : Nat) (e : Entitlement) : Entitlement :=
  { e with
    guildId := gid
    userId := uid
    productId := productId
    status := "active"
    planKey := planKey
    referenceCode := referenceCode
    lastPurchaseId := some purchaseId
    stripeSubscriptionId := subId
    currentPeriodEnd := currentPeriodEnd
    subscriptionStatus := subscriptionStatus
    updatedAt := now }

/-- The expression `meta.reference_code && meta.reference_code !== "none" ? ... : null`
(part_000 lines 2667 and 2701). -/
def referenceCodeOfMeta (rc : Option String) : Option String :=
  match rc with
  | some code => if code ≠ "none" ∧ code ≠ "" then some code else none
  | none => none

/-- The `checkout.session.completed` handler of the entitlement variant
(part_000 lines 2631-2757): one upsert on (purchaseId, sessionId) for the
purchase, a role grant and an entitlement upsert both gated on
`type === "product"`, and a DM upsell for one-time buyers. -/
def handleCheckoutCompletedEnt (subs : String → SubInfo) (guildFetchOk : Bool)
    (products : List Product) (now : Nat) (session : CheckoutSession)
    (purchases : List Purchase) (ents : List Entitlement) :
    List Purchase × List Entitlement × List Effect :=
  match session.metadata.purchase_id, session.metadata.guild_id,
      session.metadata.user_id, session.metadata.type with
  | some purchaseId, some guildId, some userId, some ty =>
      if guildId ≠ ALLOWED_GUILD_ID then (purchases, ents, [])
      else
        let currentPeriodEnd := match session.subscription with
          | some sid => (subs sid).current_period_end
          | none => none
        let subscriptionStatus := session.subscription.map (fun sid => (subs sid).status)
        let cancelAtPeriodEnd := session.subscription.map (fun sid => (subs sid).cancel_at_period_end)
        let upd := setPaidFieldsEnt now session.payment_intent session.subscription
          currentPeriodEnd subscriptionStatus cancelAtPeriodEnd
          session.metadata.plan_key session.metadata.product_id
        let r1 := updateFirst (purchaseKeyMatch purchaseId session.id) upd purchases
        let purchases1 :=
          if r1.2 then r1.1
          else
            r1.1 ++ [upd { purchaseId := purchaseId
                           guildId := guildId
                           userId := userId
                           type := ty
                           amountMinor := session.metadata.amount_minor.getD 0
                           currency := session.metadata.currency.getD CURRENCY
                           referenceCode := referenceCodeOfMeta session.metadata.reference_code
                           stripeSessionId := some session.id
                           status := "paid"
                           createdAt := now }]
        if !guildFetchOk then (purchases1, ents, [])
        else
          let roleEffects :=
            if ty == "product" then
              match session.metadata.role_id with
              | some roleId => [Effect.roleGrant userId roleId]
              | none => []
            else []
          let entResult :=
            if ty == "product" then
              match session.metadata.product_id with
              | some productId =>
                  let planKey := session.metadata.plan_key.getD "one_time"
                  let refCode := referenceCodeOfMeta session.metadata.reference_code
                  let eset := entPaidSet guildId userId productId planKey refCode
                    purchaseId session.subscription currentPeriodEnd subscriptionStatus now
                  let er := updateFirst
                    (fun e => e.guildId == guildId && e.userId == userId &&
                      e.productId == productId) eset ents
                  let newEnt : Entitlement :=
                    { guildId := guildId
                      userId := userId
                      productId := productId
                      status := "active"
                      planKey := planKey
                      createdAt := now }
                  let ents1 := if er.2 then er.1 else er.1 ++ [eset newEnt]
                  let dmEffects :=
                    match products.find? (fun pr => pr.id == productId && pr.guildId == guildId) with
                    | some product =>
                        if planKey == "one_time" && amountTruthy product.prices.monthly then
                          [Effect.dmUpsell userId]
                        else []
                    | none => []
                  (ents1, [Effect.entitlementUpsert guildId userId productId], dmEffects)
              | none => (ents, ([] : List Effect), ([] : List Effect))
            else (ents, [], [])
          (purchases1, entResult.1,
            roleEffects ++ entResult.2.1 ++ entResult.2.2 ++ [Effect.purchaseLog])
  | _, _, _, _ => (purchases, ents, [])

/-- C10: a verified `checkout.session.completed` event of type `donation`
never grants a role and never creates or updates an Entitlement row:
donation checkout metadata carries no `role_id` or `product_id`, and both
side effects are gated on the metadata type being `product`. -/
theorem c10_donation_frame :
    (∀ purchaseId guildId userId amountMinor,
      (donationMetadata purchaseId guildId userId amountMinor).role_id = none ∧
      (donationMetadata purchaseId guildId userId amountMinor).product_id = none) ∧
    (∀ (subs : String → SubInfo) (guildFetchOk : Bool) (products : List Product)
        (now : Nat) (session : CheckoutSession) (purchases : List Purchase)
        (ents : List Entitlement),
      session.metadata.type = some "donation" →
      (handleCheckoutCompletedEnt subs guildFetchOk products now session purchases ents).2.1
        = ents ∧
      ∀ e ∈ (handleCheckoutCompletedEnt subs guildFetchOk products now session
          purchases ents).2.2,
        e.isRoleGrant = false ∧ e.isEntitlementUpsert = false) := by
  constructor
  · intro purchaseId guildId userId amountMinor
    exact ⟨rfl, rfl⟩
  · intro subs guildFetchOk products now session purchases ents hty
    unfold handleCheckoutCompletedEnt
    rw [hty]
    cases hpid : session.metadata.purchase_id with
    | none => exact ⟨rfl, by intro e he; simp at he⟩
    | some pid =>
        cases hgid : session.metadata.guild_id with
        | none => exact ⟨rfl, by intro e he; simp at he⟩
        | some gid =>
            cases huid : session.metadata.user_id with
            | none => exact ⟨rfl, by intro e he; simp at he⟩
            | some uid =>
                dsimp only
                by_cases hga : gid ≠ ALLOWED_GUILD_ID
                · rw [if_pos hga]
                  exact ⟨rfl, by intro e he; simp at he⟩
                · rw [if_neg hga]
                  cases guildFetchOk with
                  | false => exact ⟨rfl, by intro e he; simp at he⟩
                  | true =>
                      rw [if_neg (show ¬ ((!true) = true) from by decide)]
                      rw [if_neg (show ¬ (("donation" == "product") = true) from by decide)]
                      rw [if_neg (show ¬ (("donation" == "product") = true) from by decide)]
                      refine ⟨rfl, ?_⟩
                      intro e he
                      have heq : e = Effect.purchaseLog := by simpa using he
                      subst heq
                      exact ⟨rfl, rfl⟩

/-- Closed witness for `c10_donation_frame`: a concrete donation event
leaves a concrete entitlement table unchanged. -/
theorem c10_donation_frame_witness :
    (donationMetadata "VT-9" ALLOWED_GUILD_ID "u1" 500).role_id = none ∧
    (handleCheckoutCompletedEnt (fun _ => ⟨"active", false, none⟩) true [] 7
        { id := "cs_9", metadata := donationMetadata "VT-9" ALLOWED_GUILD_ID "u1" 500 }
        [] []).2.1 = [] :=
  ⟨(c10_donation_frame.1 "VT-9" ALLOWED_GUILD_ID "u1" 500).1,
   (c10_donation_frame.2 (fun _ => ⟨"active", false, none⟩) true [] 7
      { id := "cs_9", metadata := donationMetadata "VT-9" ALLOWED_GUILD_ID "u1" 500 }
      [] [] rfl).1⟩

end VividTweaks
